import Mathlib

/-!
Verification development for the vendor-management data-synchronization layer.

The definitions below are a shallow embedding of the repository's core:

* `src/src/types/vendor.ts` — the `Vendor` record, the `VendorFormData`
  edit form, the `SheetsApiResponse` envelope, the Google Sheets backend
  (`createGoogleSheetsService`), and the localStorage backend
  (`createLocalStorageService`, `SEED_DATA`, `getStoredVendors`).
* `src/src/utils/validation.ts` — `formDataToVendor` / `vendorToFormData`.
* `src/src/hooks/useVendors.ts` — the orchestration hook (`refresh`,
  `addVendor`, `updateVendor`, `deleteVendor`).

Modelling conventions:

* JavaScript string primitives (`trim`, `split`, `join`, `Number` coercion)
  are modelled by executable Lean functions over `String.data`
  (`jsTrim`, `jsSplit`, `jsJoin`, `jsStrNumber`), restricted to the
  optional-sign decimal integers the application actually stores.
* JavaScript numbers are modelled as `Int` (the application only stores
  the bounded integer `YearsInBusiness`).
* Asynchrony (`Promise`, `await`) is erased: each operation is a pure
  function; the artificial `simulateDelay` has no observable effect.
* The remote spreadsheet is a grid of cells (`Sheet`); a cell is either a
  string or a number (`CellVal`), exactly the two shapes the service puts
  into its JSON request bodies.  Transport outcomes (HTTP non-success,
  thrown transport/parse errors) are injected through a `Transport` oracle.
* `localStorage` is modelled by `StoreState`: empty, holding unparseable
  content, or holding a JSON-encoded record list; `JSON.stringify` /
  `JSON.parse` round-tripping on record lists is abstracted as identity.
* The React hook's `useState` cells are a `HookState` record; each hook
  operation is a state transformer taking the backend's response(s) as
  oracle inputs.
-/

namespace VendorPortal

/-- Storage-form vendor record (interface `Vendor` in `types/vendor.ts`).
`BusinessType` is a TypeScript string union, so it is a `String` here;
`Products` is the comma-separated wire string; `YearsInBusiness` is a
JS number, modelled as `Int`. -/
structure Vendor where
  CompanyName : String
  BusinessType : String
  Products : String
  YearsInBusiness : Int
  OnboardingDate : String
  AdditionalInfo : String
deriving DecidableEq, Repr

/-- Edit-form record (interface `VendorFormData`).  At runtime the
`products` array holds the strings produced by `String.split`, so it is a
`List String`; `businessType` may be the empty string. -/
structure VendorFormData where
  companyName : String
  businessType : String
  products : List String
  yearsInBusiness : Int
  onboardingDate : String
  additionalInfo : String
deriving DecidableEq, Repr

/-- Product enum (`Product` union in `types/vendor.ts`). -/
inductive Product where
  | electronics
  | apparel
  | groceries
  | software
  | other
deriving DecidableEq, Repr

/-- Wire string of each product enum value. -/
def Product.toStr : Product → String
  | .electronics => "Electronics"
  | .apparel => "Apparel"
  | .groceries => "Groceries"
  | .software => "Software"
  | .other => "Other"

/-- The five business-type enum values (`BUSINESS_TYPES` in
`constants/vendor.ts`). -/
def BUSINESS_TYPES : List String :=
  ["Manufacturer", "Distributor", "Wholesaler", "Retailer", "Service Provider"]

/-- Whitespace recognised by the JS `trim` model. -/
def isWsChar (c : Char) : Bool :=
  c = ' ' ∨ c = '\t' ∨ c = '\n' ∨ c = '\r'

/-- Models `String.prototype.trim`: drop leading and trailing whitespace. -/
def jsTrim (s : String) : String :=
  ⟨((s.data.dropWhile isWsChar).reverse.dropWhile isWsChar).reverse⟩

/-- Models `Array.prototype.join(sep)` on character lists. -/
def jsJoinAux (sep : List Char) : List (List Char) → List Char
  | [] => []
  | [x] => x
  | x :: y :: tl => x ++ sep ++ jsJoinAux sep (y :: tl)

/-- Models `Array.prototype.join(sep)` for a list of strings. -/
def jsJoin (sep : String) (l : List String) : String :=
  ⟨jsJoinAux sep.data (l.map (·.data))⟩

/-- Scanner for `jsSplit`.  `fuel` bounds the recursion; every call site
supplies `fuel ≥` the length of the scanned list, which makes the `0`
fallback unreachable for a non-empty separator. -/
def splitSepAux (sep : List Char) : Nat → List Char → List Char → List (List Char)
  | _, [], acc => [acc.reverse]
  | 0, s, acc => [acc.reverse ++ s]
  | fuel + 1, c :: cs, acc =>
    if sep.isPrefixOf (c :: cs) then
      acc.reverse :: splitSepAux sep fuel (List.drop (sep.length - 1) cs) []
    else
      splitSepAux sep fuel cs (c :: acc)

/-- Models `String.prototype.split(sep)` for a non-empty literal separator
(the code only ever splits on the two-character separator `", "`); an empty
separator splits into single characters as in JS. -/
def jsSplit (s sep : String) : List String :=
  match sep.data with
  | [] => s.data.map (fun c => String.mk [c])
  | _ => (splitSepAux sep.data s.data.length s.data []).map String.mk

/-- `formDataToVendor` from `utils/validation.ts`: trims the company name
and notes and joins the product list with `", "`. -/
def formDataToVendor (formData : VendorFormData) : Vendor :=
  { CompanyName := jsTrim formData.companyName
  , BusinessType := formData.businessType
  , Products := jsJoin ", " formData.products
  , YearsInBusiness := formData.yearsInBusiness
  , OnboardingDate := formData.onboardingDate
  , AdditionalInfo := jsTrim formData.additionalInfo }

/-- `vendorToFormData` from `utils/validation.ts`: splits the product
string on `", "` and drops empty segments (`filter(Boolean)`); an empty
(falsy) product string yields the empty list; `AdditionalInfo || ''` is
the identity on strings. -/
def vendorToFormData (vendor : Vendor) : VendorFormData :=
  { companyName := vendor.CompanyName
  , businessType := vendor.BusinessType
  , products :=
      if vendor.Products = "" then []
      else (jsSplit vendor.Products ", ").filter (fun s => s ≠ "")
  , yearsInBusiness := vendor.YearsInBusiness
  , onboardingDate := vendor.OnboardingDate
  , additionalInfo := vendor.AdditionalInfo }

/-- Result envelope (`SheetsApiResponse<T>` in `types/vendor.ts`). -/
structure SheetsApiResponse (α : Type) where
  success : Bool
  data : Option α := none
  error : Option String := none
deriving DecidableEq, Repr

/-- A spreadsheet cell as it appears in the service's JSON payloads:
the service writes strings for the five text fields and a number for
`YearsInBusiness`. -/
inductive CellVal where
  | str (s : String)
  | num (n : Int)
deriving DecidableEq, Repr

/-- JS string coercion of a cell value. -/
def cellToString : CellVal → String
  | .str s => s
  | .num n => toString n

/-- JS falsiness of a cell value (`''` and `0` are falsy). -/
def cellFalsy : CellVal → Bool
  | .str s => s = ""
  | .num n => n = 0

/-- Models `row[index] || ''`: a falsy cell is replaced by the empty
string. -/
def orEmpty (c : CellVal) : CellVal :=
  if cellFalsy c then .str "" else c

/-- Digit-list value: `some n` when the list is a non-empty run of
decimal digits. -/
def decDigits (cs : List Char) : Option Nat :=
  match cs with
  | [] => none
  | _ =>
    cs.foldl
      (fun acc c =>
        match acc with
        | none => none
        | some n => if c.isDigit then some (n * 10 + (c.toNat - 48)) else none)
      (some 0)

/-- Models `Number(s) || 0` restricted to optional-sign decimal integers:
surrounding whitespace is ignored, the empty string is `0`, and anything
that does not parse (JS `NaN`) collapses to `0`. -/
def jsStrNumber (s : String) : Int :=
  match (jsTrim s).data with
  | [] => 0
  | '-' :: rest => -(((decDigits rest).getD 0 : Nat) : Int)
  | '+' :: rest => ((decDigits rest).getD 0 : Nat)
  | cs => ((decDigits cs).getD 0 : Nat)

/-- Models `Number(cell) || 0` on a cell value. -/
def jsCellNumber : CellVal → Int
  | .num n => n
  | .str s => jsStrNumber s

/-- Index of the last occurrence of `key` among the headers: JS assigns
`vendor[header] = row[index]` for every header in order, so the last
occurrence of a duplicated header wins. -/
def lastIdxOf (key : String) (headers : List String) : Option Nat :=
  ((List.range headers.length).filter
    (fun i => headers.getD i "" = key)).getLast?

/-- Header-driven row mapping of `fetchVendors`: each header names a
field key; a missing cell is `undefined`, hence coerced to `''` by
`|| ''`; a field whose header is absent is left `undefined`, modelled as
the field's default (`""`, and `0` for the numeric field after
`Number(undefined) || 0`). -/
def rowToVendor (headers : List String) (row : List CellVal) : Vendor :=
  let cellFor : String → Option CellVal := fun key =>
    match lastIdxOf key headers with
    | none => none
    | some i => some (orEmpty (row.getD i (.str "")))
  let strFor : String → String := fun key =>
    match cellFor key with
    | none => ""
    | some c => cellToString c
  { CompanyName := strFor "CompanyName"
  , BusinessType := strFor "BusinessType"
  , Products := strFor "Products"
  , YearsInBusiness :=
      match cellFor "YearsInBusiness" with
      | none => 0
      | some c => jsCellNumber c
  , OnboardingDate := strFor "OnboardingDate"
  , AdditionalInfo := strFor "AdditionalInfo" }

/-- The canonical header names the delete rewrite emits (`headers` array
inside `deleteVendor`). -/
def SHEET_HEADERS : List String :=
  ["CompanyName", "BusinessType", "Products", "YearsInBusiness",
   "OnboardingDate", "AdditionalInfo"]

/-- The positional 6-cell row every write emits, in the service's fixed
canonical column order. -/
def vendorRow (v : Vendor) : List CellVal :=
  [.str v.CompanyName, .str v.BusinessType, .str v.Products,
   .num v.YearsInBusiness, .str v.OnboardingDate, .str v.AdditionalInfo]

/-- The remote spreadsheet: the full grid returned by the ranged GET
(`data.values`). -/
structure Sheet where
  rows : List (List CellVal)
deriving DecidableEq, Repr

/-- Outcome of one HTTP exchange: success, a non-ok response
(`response.ok` false, carrying `statusText`), or a thrown
transport/parse error carrying `error.message`. -/
inductive Fault where
  | ok
  | httpError (status : String)
  | thrown (msg : String)
deriving DecidableEq, Repr

/-- Transport oracle for one service operation: the fault of its GET
(used by `fetchVendors`, also internally by update/delete) and of its
write request (POST append or PUT). -/
structure Transport where
  getFault : Fault
  writeFault : Fault
deriving DecidableEq, Repr

/-- Pure parsing core of the remote `fetchVendors`: fewer than 2 rows
yield the empty list, otherwise row 1 is the header row and every later
row is zip-mapped through the header-driven mapping. -/
def parseSheet (sheet : Sheet) : List Vendor :=
  if sheet.rows.length ≤ 1 then []
  else
    (sheet.rows.drop 1).map
      (rowToVendor ((sheet.rows.headD []).map cellToString))

/-- Remote `fetchVendors` (`createGoogleSheetsService`): a non-ok GET or
a thrown error is caught and becomes a failure envelope; otherwise the
grid is parsed header-driven. -/
def sheetFetchVendors (t : Transport) (sheet : Sheet) :
    SheetsApiResponse (List Vendor) :=
  match t.getFault with
  | .ok => { success := true, data := some (parseSheet sheet) }
  | .httpError status =>
      { success := false, error := some ("Google Sheets API error: " ++ status) }
  | .thrown msg => { success := false, error := some msg }

/-- Remote `addVendor`: appends exactly one row in the fixed canonical
column order; a write fault is caught and leaves the sheet unchanged. -/
def sheetAddVendor (t : Transport) (vendor : Vendor) (sheet : Sheet) :
    SheetsApiResponse Vendor × Sheet :=
  match t.writeFault with
  | .ok => ({ success := true, data := some vendor },
            ⟨sheet.rows ++ [vendorRow vendor]⟩)
  | .httpError status =>
      ({ success := false, error := some ("Failed to add vendor: " ++ status) },
       sheet)
  | .thrown msg => ({ success := false, error := some msg }, sheet)

/-- Remote `updateVendor`: re-fetches the table, locates the record by
`CompanyName`, and rewrites sheet row `index + 2` (1-based plus the
header row) positionally; every failure path is a failure envelope. -/
def sheetUpdateVendor (t : Transport) (originalName : String)
    (vendor : Vendor) (sheet : Sheet) : SheetsApiResponse Vendor × Sheet :=
  let allData := sheetFetchVendors t sheet
  match allData.success, allData.data with
  | true, some vendors =>
    match vendors.findIdx? (fun v => v.CompanyName = originalName) with
    | none =>
        ({ success := false
         , error := some ("Vendor \"" ++ originalName ++ "\" not found") },
         sheet)
    | some rowIndex =>
      match t.writeFault with
      | .ok => ({ success := true, data := some vendor },
                ⟨sheet.rows.set (rowIndex + 1) (vendorRow vendor)⟩)
      | .httpError status =>
          ({ success := false
           , error := some ("Failed to update vendor: " ++ status) }, sheet)
      | .thrown msg => ({ success := false, error := some msg }, sheet)
  | _, _ =>
      ({ success := false
       , error := some "Failed to fetch existing data for update" }, sheet)

/-- Remote `deleteVendor`: re-fetches the table, filters out every record
whose `CompanyName` matches, and rewrites the whole sheet (canonical
header row plus the surviving rows); not-found and every fault are
failure envelopes leaving the sheet unchanged. -/
def sheetDeleteVendor (t : Transport) (companyName : String) (sheet : Sheet) :
    SheetsApiResponse Unit × Sheet :=
  let allData := sheetFetchVendors t sheet
  match allData.success, allData.data with
  | true, some vendors =>
    match vendors.findIdx? (fun v => v.CompanyName = companyName) with
    | none =>
        ({ success := false
         , error := some ("Vendor \"" ++ companyName ++ "\" not found") },
         sheet)
    | some _ =>
      let updatedVendors := vendors.filter (fun v => v.CompanyName ≠ companyName)
      match t.writeFault with
      | .ok => ({ success := true },
                ⟨(SHEET_HEADERS.map .str) :: updatedVendors.map vendorRow⟩)
      | .httpError status =>
          ({ success := false
           , error := some ("Failed to delete vendor: " ++ status) }, sheet)
      | .thrown msg => ({ success := false, error := some msg }, sheet)
  | _, _ =>
      ({ success := false
       , error := some "Failed to fetch existing data for deletion" }, sheet)

/-- The five sample records (`SEED_DATA` in `googleSheetsService`). -/
def SEED_DATA : List Vendor :=
  [ { CompanyName := "Acme Electronics"
    , BusinessType := "Manufacturer"
    , Products := "Electronics, Software"
    , YearsInBusiness := 15
    , OnboardingDate := "2024-01-15"
    , AdditionalInfo := "Primary electronics supplier" }
  , { CompanyName := "Global Distributors Inc."
    , BusinessType := "Distributor"
    , Products := "Electronics, Apparel, Groceries"
    , YearsInBusiness := 25
    , OnboardingDate := "2023-06-20"
    , AdditionalInfo := "International distribution network" }
  , { CompanyName := "FreshMart Wholesale"
    , BusinessType := "Wholesaler"
    , Products := "Groceries"
    , YearsInBusiness := 8
    , OnboardingDate := "2024-03-10"
    , AdditionalInfo := "Organic and fresh produce specialist" }
  , { CompanyName := "TechSoft Solutions"
    , BusinessType := "Service Provider"
    , Products := "Software"
    , YearsInBusiness := 5
    , OnboardingDate := "2024-07-01"
    , AdditionalInfo := "Cloud-based SaaS solutions" }
  , { CompanyName := "StyleHub Retail"
    , BusinessType := "Retailer"
    , Products := "Apparel, Other"
    , YearsInBusiness := 12
    , OnboardingDate := "2023-11-30"
    , AdditionalInfo := "Premium fashion retail chain" } ]

/-- State of the `localStorage` slot under `STORAGE_KEY`: absent
(`getItem` returns null), holding content that fails `JSON.parse`, or
holding a JSON-encoded record list.  Encode/decode round-tripping on
record lists is abstracted as identity. -/
inductive StoreState where
  | empty
  | corrupt (raw : String)
  | stored (vendors : List Vendor)
deriving DecidableEq, Repr

/-- `getStoredVendors`: empty store → seed is returned and persisted
(`setItem`); unparseable content → the seed is returned but the catch
branch performs no write; parsed content → returned as-is. -/
def getStoredVendors : StoreState → List Vendor × StoreState
  | .empty => (SEED_DATA, .stored SEED_DATA)
  | .corrupt raw => (SEED_DATA, .corrupt raw)
  | .stored vendors => (vendors, .stored vendors)

/-- `saveVendors`: `setItem(STORAGE_KEY, JSON.stringify(vendors))`. -/
def saveVendors (vendors : List Vendor) : StoreState :=
  .stored vendors

/-- Local `fetchVendors` (`createLocalStorageService`); the simulated
delay is erased. -/
def localFetchVendors (st : StoreState) :
    SheetsApiResponse (List Vendor) × StoreState :=
  let (vendors, st') := getStoredVendors st
  ({ success := true, data := some vendors }, st')

/-- Local `addVendor`: push onto the stored list and persist. -/
def localAddVendor (vendor : Vendor) (st : StoreState) :
    SheetsApiResponse Vendor × StoreState :=
  let (vendors, _) := getStoredVendors st
  ({ success := true, data := some vendor }, saveVendors (vendors ++ [vendor]))

/-- Local `updateVendor`: locate by exact `CompanyName` match; not-found
is a failure envelope (note the lookup's read may already have seeded an
empty store). -/
def localUpdateVendor (originalName : String) (vendor : Vendor)
    (st : StoreState) : SheetsApiResponse Vendor × StoreState :=
  let (vendors, st') := getStoredVendors st
  match vendors.findIdx? (fun v => v.CompanyName = originalName) with
  | none =>
      ({ success := false
       , error := some ("Vendor \"" ++ originalName ++ "\" not found") }, st')
  | some index =>
      ({ success := true, data := some vendor },
       saveVendors (vendors.set index vendor))

/-- Local `deleteVendor`: filter out every matching record; when nothing
was filtered out the result is a not-found failure envelope. -/
def localDeleteVendor (companyName : String) (st : StoreState) :
    SheetsApiResponse Unit × StoreState :=
  let (vendors, st') := getStoredVendors st
  let filtered := vendors.filter (fun v => v.CompanyName ≠ companyName)
  if filtered.length = vendors.length then
    ({ success := false
     , error := some ("Vendor \"" ++ companyName ++ "\" not found") }, st')
  else
    ({ success := true }, saveVendors filtered)

/-- Alert severity (`AlertType` in `types/vendor.ts`). -/
inductive AlertType where
  | success
  | warning
  | error
  | info
deriving DecidableEq, Repr

/-- Alert payload (`AlertMessage`). -/
structure AlertMessage where
  type : AlertType
  message : String
deriving DecidableEq, Repr

/-- The `useState` cells of `useVendors`. -/
structure HookState where
  vendors : List Vendor
  isLoading : Bool
  isInitialLoading : Bool
  error : Option String
  alert : Option AlertMessage
deriving DecidableEq, Repr

/-- Models `opt || default` for an optional string: `undefined` and the
empty string are falsy. -/
def jsOrStr (o : Option String) (d : String) : String :=
  match o with
  | none => d
  | some s => if s = "" then d else s

/-- The hook's `refresh`, with the backend's `fetchVendors` response as
an oracle input: on `result.success && result.data` replace the record
list; otherwise set the error message; always clear both loading flags
at the end. -/
def refreshStep (result : SheetsApiResponse (List Vendor)) (s : HookState) :
    HookState :=
  let s1 : HookState := { s with isLoading := true, error := none }
  let s2 : HookState :=
    match result.success, result.data with
    | true, some vendors => { s1 with vendors := vendors }
    | _, _ =>
        { s1 with error := some (jsOrStr result.error "Failed to fetch vendor data") }
  { s2 with isLoading := false, isInitialLoading := false }

/-- The hook's `addVendor`, with the backend's add response and the
subsequent refresh's fetch response as oracle inputs; returns the new
state and the boolean the promise resolves to. -/
def addVendorStep (result : SheetsApiResponse Vendor)
    (fetchResult : SheetsApiResponse (List Vendor)) (s : HookState) :
    HookState × Bool :=
  let s1 : HookState := { s with isLoading := true, alert := none }
  if result.success then
    (refreshStep fetchResult
      { s1 with alert := some ⟨.success, "Vendor details successfully submitted!"⟩ },
     true)
  else
    ({ s1 with
        alert := some ⟨.error, jsOrStr result.error "Failed to add vendor"⟩
      , isLoading := false },
     false)

/-- The hook's `updateVendor` (same shape as `addVendorStep`; the
original name and the new record only flow to the backend, which is
already summarised by `result`). -/
def updateVendorStep (result : SheetsApiResponse Vendor)
    (fetchResult : SheetsApiResponse (List Vendor)) (s : HookState) :
    HookState × Bool :=
  let s1 : HookState := { s with isLoading := true, alert := none }
  if result.success then
    (refreshStep fetchResult
      { s1 with alert := some ⟨.success, "Vendor details successfully updated!"⟩ },
     true)
  else
    ({ s1 with
        alert := some ⟨.error, jsOrStr result.error "Failed to update vendor"⟩
      , isLoading := false },
     false)

/-- The hook's `deleteVendor` (same shape as `addVendorStep`). -/
def deleteVendorStep (result : SheetsApiResponse Unit)
    (fetchResult : SheetsApiResponse (List Vendor)) (s : HookState) :
    HookState × Bool :=
  let s1 : HookState := { s with isLoading := true, alert := none }
  if result.success then
    (refreshStep fetchResult
      { s1 with alert := some ⟨.success, "Vendor successfully deleted!"⟩ },
     true)
  else
    ({ s1 with
        alert := some ⟨.error, jsOrStr result.error "Failed to delete vendor"⟩
      , isLoading := false },
     false)

/-- A convenient concrete record for witnesses. -/
def acme2 : Vendor :=
  { CompanyName := "Acme2"
  , BusinessType := "Retailer"
  , Products := "Electronics"
  , YearsInBusiness := 3
  , OnboardingDate := "2025-01-01"
  , AdditionalInfo := "" }

/-- First duplicate-key record for the C1 counterexample. -/
def dupA1 : Vendor :=
  { CompanyName := "A", BusinessType := "Retailer", Products := "Electronics"
  , YearsInBusiness := 1, OnboardingDate := "2025-01-01"
  , AdditionalInfo := "first" }

/-- Second duplicate-key record for the C1 counterexample. -/
def dupA2 : Vendor :=
  { CompanyName := "A", BusinessType := "Distributor", Products := "Apparel"
  , YearsInBusiness := 2, OnboardingDate := "2025-01-02"
  , AdditionalInfo := "second" }

/-- A result envelope in the shape the service contract promises: either
success, or failure carrying an error string. -/
def wellFormedResult {α : Type} (r : SheetsApiResponse α) : Prop :=
  r.success = true ∨ (r.success = false ∧ r.error ≠ none)

/-- A `|| ''` coercion followed by string coercion is the identity on
string cells. -/
lemma cellToString_orEmpty_str (s : String) :
    cellToString (orEmpty (.str s)) = s := by
  unfold orEmpty cellFalsy
  split
  · next h => simp only [cellToString]; exact (of_decide_eq_true h).symm
  · rfl

/-- A `|| ''` coercion followed by `Number(_) || 0` is the identity on
numeric cells (a `0` cell becomes `''`, which `Number` maps back to `0`). -/
lemma jsCellNumber_orEmpty_num (n : Int) :
    jsCellNumber (orEmpty (.num n)) = n := by
  unfold orEmpty cellFalsy
  split
  · next h => simpa using (of_decide_eq_true h).symm
  · rfl

/-- Reading a canonically written row through the header-driven mapping
with the canonical headers recovers the record exactly. -/
lemma rowToVendor_vendorRow (v : Vendor) :
    rowToVendor SHEET_HEADERS (vendorRow v) = v := by
  have h1 : lastIdxOf "CompanyName" SHEET_HEADERS = some 0 := by decide
  have h2 : lastIdxOf "BusinessType" SHEET_HEADERS = some 1 := by decide
  have h3 : lastIdxOf "Products" SHEET_HEADERS = some 2 := by decide
  have h4 : lastIdxOf "YearsInBusiness" SHEET_HEADERS = some 3 := by decide
  have h5 : lastIdxOf "OnboardingDate" SHEET_HEADERS = some 4 := by decide
  have h6 : lastIdxOf "AdditionalInfo" SHEET_HEADERS = some 5 := by decide
  cases v with
  | mk c b p y o a =>
    simp [rowToVendor, vendorRow, h1, h2, h3, h4, h5, h6, List.getD,
      cellToString_orEmpty_str, jsCellNumber_orEmpty_num]

/-- The header row the delete rewrite emits coerces back to the
canonical header names. -/
lemma headerRow_names :
    (SHEET_HEADERS.map CellVal.str).map cellToString = SHEET_HEADERS := by
  decide

/-- Parsing a sheet of the canonical shape (canonical header row, one
positional row per record) recovers exactly the record list. -/
lemma parseSheet_canonical (l : List Vendor) :
    parseSheet ⟨(SHEET_HEADERS.map CellVal.str) :: l.map vendorRow⟩ = l := by
  cases l with
  | nil => rfl
  | cons v tl =>
    unfold parseSheet
    simp only [List.length_cons, List.headD_cons, List.drop_succ_cons,
      List.drop_zero, headerRow_names]
    rw [if_neg (by simp)]
    simp [List.map_map, Function.comp_def, rowToVendor_vendorRow]

/-- `findIdx?` returning `none` means no element satisfies the test. -/
lemma findIdx?_none_no_match {α : Type} (p : α → Bool) (l : List α)
    (h : l.findIdx? p = none) : ∀ a ∈ l, p a = false := by
  intro a ha
  have := List.findIdx?_eq_none_iff.mp h a ha
  simpa using this

/-- `findIdx?` finds an index when some element satisfies the test. -/
lemma findIdx?_some_of_match {α : Type} (p : α → Bool) (l : List α)
    (h : ∃ a ∈ l, p a = true) : ∃ i, l.findIdx? p = some i := by
  cases hidx : l.findIdx? p with
  | some i => exact ⟨i, rfl⟩
  | none =>
    rcases h with ⟨a, ha, hp⟩
    have := findIdx?_none_no_match p l hidx a ha
    simp [hp] at this

/-- A filter over a list with at least one failing element is strictly
shorter than the list. -/
lemma filter_length_lt_of_mem_not {α : Type} (p : α → Bool) (l : List α)
    (h : ∃ a ∈ l, p a = false) : (l.filter p).length ≠ l.length := by
  rcases h with ⟨a, ha, hp⟩
  intro hlen
  have hall := (List.filter_length_eq_length).mp hlen
  have := hall a ha
  simp [hp] at this

/-- A `|| default` coalescing with a non-empty default never yields the
empty string. -/
lemma jsOrStr_ne_empty (o : Option String) (d : String) (hd : d ≠ "") :
    jsOrStr o d ≠ "" := by
  unfold jsOrStr
  cases o with
  | none => exact hd
  | some s =>
    show (if s = "" then d else s) ≠ ""
    by_cases hs : s = ""
    · rw [if_pos hs]; exact hd
    · rw [if_neg hs]; exact hs

/-- C7: for the remote tabular backend, `fetchAll` applied to a response
containing fewer than 2 rows (header only, or no rows at all) returns a
success envelope whose payload is the empty list. -/
theorem C7_fetch_few_rows (t : Transport) (sheet : Sheet)
    (hok : t.getFault = .ok) (hlen : sheet.rows.length < 2) :
    sheetFetchVendors t sheet
      = { success := true, data := some [], error := none } := by
  unfold sheetFetchVendors
  rw [hok]
  unfold parseSheet
  rw [if_pos (by omega)]

/-- Witness for C7 at the fully empty sheet. -/
theorem C7_witness :
    sheetFetchVendors ⟨Fault.ok, Fault.ok⟩ ⟨[]⟩
      = { success := true, data := some [], error := none } :=
  C7_fetch_few_rows ⟨Fault.ok, Fault.ok⟩ ⟨[]⟩ rfl (by decide)

/-- C8: the remote backend's `add` writes exactly one row whose cells
are, in order, company name, business type, products string,
years-in-business, onboarding date and notes — the fixed 6-column
canonical order — for every sheet, hence independent of any header
arrangement the header-driven read would observe. -/
theorem C8_add_positional (t : Transport) (v : Vendor) (sheet : Sheet)
    (hok : t.writeFault = .ok) :
    sheetAddVendor t v sheet
      = ({ success := true, data := some v, error := none },
         ⟨sheet.rows ++
           [[CellVal.str v.CompanyName, CellVal.str v.BusinessType,
             CellVal.str v.Products, CellVal.num v.YearsInBusiness,
             CellVal.str v.OnboardingDate, CellVal.str v.AdditionalInfo]]⟩) := by
  unfold sheetAddVendor
  rw [hok]
  rfl

/-- Witness for C8: one canonical row is appended to a one-row sheet with
scrambled headers. -/
theorem C8_witness :
    sheetAddVendor ⟨Fault.ok, Fault.ok⟩ acme2
        ⟨[[CellVal.str "AdditionalInfo", CellVal.str "CompanyName"]]⟩
      = ({ success := true, data := some acme2, error := none },
         ⟨[[CellVal.str "AdditionalInfo", CellVal.str "CompanyName"],
           [CellVal.str "Acme2", CellVal.str "Retailer",
            CellVal.str "Electronics", CellVal.num 3,
            CellVal.str "2025-01-01", CellVal.str ""]]⟩) :=
  C8_add_positional ⟨Fault.ok, Fault.ok⟩ acme2
    ⟨[[CellVal.str "AdditionalInfo", CellVal.str "CompanyName"]]⟩ rfl

/-- C5: for each mutating hook operation (add, update, delete), when the
backend returns a failure envelope the records cache is exactly as
before, the alert is an error alert carrying a non-empty message, busy is
cleared while the refresh-only fields (`error`, `isInitialLoading`) are
untouched — so `refresh` was not invoked — and the operation resolves
`false`. -/
theorem C5_failed_mutation_frame (s : HookState)
    (fetchResult : SheetsApiResponse (List Vendor)) :
    (∀ result : SheetsApiResponse Vendor, result.success = false →
       (addVendorStep result fetchResult s).1.vendors = s.vendors
       ∧ (∃ m, (addVendorStep result fetchResult s).1.alert
             = some ⟨.error, m⟩ ∧ m ≠ "")
       ∧ (addVendorStep result fetchResult s).1.isLoading = false
       ∧ (addVendorStep result fetchResult s).1.error = s.error
       ∧ (addVendorStep result fetchResult s).1.isInitialLoading
           = s.isInitialLoading
       ∧ (addVendorStep result fetchResult s).2 = false)
    ∧ (∀ result : SheetsApiResponse Vendor, result.success = false →
       (updateVendorStep result fetchResult s).1.vendors = s.vendors
       ∧ (∃ m, (updateVendorStep result fetchResult s).1.alert
             = some ⟨.error, m⟩ ∧ m ≠ "")
       ∧ (updateVendorStep result fetchResult s).1.isLoading = false
       ∧ (updateVendorStep result fetchResult s).1.error = s.error
       ∧ (updateVendorStep result fetchResult s).1.isInitialLoading
           = s.isInitialLoading
       ∧ (updateVendorStep result fetchResult s).2 = false)
    ∧ (∀ result : SheetsApiResponse Unit, result.success = false →
       (deleteVendorStep result fetchResult s).1.vendors = s.vendors
       ∧ (∃ m, (deleteVendorStep result fetchResult s).1.alert
             = some ⟨.error, m⟩ ∧ m ≠ "")
       ∧ (deleteVendorStep result fetchResult s).1.isLoading = false
       ∧ (deleteVendorStep result fetchResult s).1.error = s.error
       ∧ (deleteVendorStep result fetchResult s).1.isInitialLoading
           = s.isInitialLoading
       ∧ (deleteVendorStep result fetchResult s).2 = false) := by
  refine ⟨fun result h => ?_, fun result h => ?_, fun result h => ?_⟩
  · unfold addVendorStep
    rw [h]
    exact ⟨rfl, ⟨_, rfl, jsOrStr_ne_empty _ _ (by decide)⟩, rfl, rfl, rfl, rfl⟩
  · unfold updateVendorStep
    rw [h]
    exact ⟨rfl, ⟨_, rfl, jsOrStr_ne_empty _ _ (by decide)⟩, rfl, rfl, rfl, rfl⟩
  · unfold deleteVendorStep
    rw [h]
    exact ⟨rfl, ⟨_, rfl, jsOrStr_ne_empty _ _ (by decide)⟩, rfl, rfl, rfl, rfl⟩

/-- Witness for C5: a failed delete against a one-record cache leaves the
cache intact, raises a non-empty error alert, clears busy and resolves
`false`. -/
theorem C5_witness :
    (deleteVendorStep
        { success := false, error := some "Vendor \"X\" not found" }
        { success := true, data := some [] }
        { vendors := [acme2], isLoading := false, isInitialLoading := false
        , error := none, alert := none }).1.vendors = [acme2]
    ∧ (deleteVendorStep
        { success := false, error := some "Vendor \"X\" not found" }
        { success := true, data := some [] }
        { vendors := [acme2], isLoading := false, isInitialLoading := false
        , error := none, alert := none }).2 = false :=
  have h := (C5_failed_mutation_frame
    { vendors := [acme2], isLoading := false, isInitialLoading := false
    , error := none, alert := none }
    { success := true, data := some [] }).2.2
    { success := false, error := some "Vendor \"X\" not found" } rfl
  ⟨h.1, h.2.2.2.2.2⟩

/-- C6: the hook's `refresh` on a failing fetch stores the envelope's
message in `error` and leaves the records snapshot untouched, and in
every run both loading flags are false when it completes. -/
theorem C6_refresh_outcome (s : HookState)
    (result : SheetsApiResponse (List Vendor)) :
    (∀ m, result.success = false → result.error = some m → m ≠ "" →
       (refreshStep result s).error = some m
       ∧ (refreshStep result s).vendors = s.vendors)
    ∧ (refreshStep result s).isLoading = false
    ∧ (refreshStep result s).isInitialLoading = false := by
  refine ⟨fun m hs he hm => ?_, ?_, ?_⟩
  · unfold refreshStep
    rw [hs, he]
    cases result.data <;> simp [jsOrStr, hm]
  · unfold refreshStep
    cases result.success <;> cases result.data <;> rfl
  · unfold refreshStep
    cases result.success <;> cases result.data <;> rfl

/-- Witness for C6 at a concrete failing fetch. -/
theorem C6_witness :
    (refreshStep { success := false, error := some "network down" }
        { vendors := [acme2], isLoading := true, isInitialLoading := true
        , error := none, alert := none }).error = some "network down"
    ∧ (refreshStep { success := false, error := some "network down" }
        { vendors := [acme2], isLoading := true, isInitialLoading := true
        , error := none, alert := none }).vendors = [acme2] :=
  (C6_refresh_outcome
    { vendors := [acme2], isLoading := true, isInitialLoading := true
    , error := none, alert := none }
    { success := false, error := some "network down" }).1
    "network down" rfl rfl (by decide)

/-- C10: for each mutating hook operation, when the backend mutation
succeeds but the subsequent refresh's fetch fails, the operation still
resolves `true`, the alert remains the success alert, `error` carries the
fetch failure's message, and the records cache keeps its pre-mutation
snapshot. -/
theorem C10_true_despite_stale_cache (s : HookState)
    (fetchResult : SheetsApiResponse (List Vendor)) (m : String)
    (hfs : fetchResult.success = false) (hfe : fetchResult.error = some m)
    (hm : m ≠ "") :
    (∀ result : SheetsApiResponse Vendor, result.success = true →
       addVendorStep result fetchResult s
         = ({ vendors := s.vendors, isLoading := false
            , isInitialLoading := false, error := some m
            , alert := some ⟨.success, "Vendor details successfully submitted!"⟩ },
            true))
    ∧ (∀ result : SheetsApiResponse Vendor, result.success = true →
       updateVendorStep result fetchResult s
         = ({ vendors := s.vendors, isLoading := false
            , isInitialLoading := false, error := some m
            , alert := some ⟨.success, "Vendor details successfully updated!"⟩ },
            true))
    ∧ (∀ result : SheetsApiResponse Unit, result.success = true →
       deleteVendorStep result fetchResult s
         = ({ vendors := s.vendors, isLoading := false
            , isInitialLoading := false, error := some m
            , alert := some ⟨.success, "Vendor successfully deleted!"⟩ },
            true)) := by
  refine ⟨fun result h => ?_, fun result h => ?_, fun result h => ?_⟩
  · unfold addVendorStep refreshStep
    rw [h, hfs, hfe]
    cases fetchResult.data <;> simp [jsOrStr, hm]
  · unfold updateVendorStep refreshStep
    rw [h, hfs, hfe]
    cases fetchResult.data <;> simp [jsOrStr, hm]
  · unfold deleteVendorStep refreshStep
    rw [h, hfs, hfe]
    cases fetchResult.data <;> simp [jsOrStr, hm]

/-- Witness for C10: a successful delete whose refresh fetch fails still
resolves `true` with the stale one-record cache and the fetch error
recorded. -/
theorem C10_witness :
    deleteVendorStep { success := true }
        { success := false, error := some "network down" }
        { vendors := [acme2], isLoading := false, isInitialLoading := false
        , error := none, alert := none }
      = ({ vendors := [acme2], isLoading := false, isInitialLoading := false
         , error := some "network down"
         , alert := some ⟨.success, "Vendor successfully deleted!"⟩ }, true) :=
  (C10_true_despite_stale_cache
    { vendors := [acme2], isLoading := false, isInitialLoading := false
    , error := none, alert := none }
    { success := false, error := some "network down" }
    "network down" rfl rfl (by decide)).2.2 { success := true } rfl

/-- C9: every backend operation on either backend is a total function
into the envelope type, and on every input — including every injected
transport fault — it yields either success or a failure envelope carrying
an error message; no exception crosses the service boundary. -/
theorem C9_no_escaping_faults (t : Transport) (sheet : Sheet)
    (st : StoreState) (v : Vendor) (name : String) :
    wellFormedResult (sheetFetchVendors t sheet)
    ∧ wellFormedResult (sheetAddVendor t v sheet).1
    ∧ wellFormedResult (sheetUpdateVendor t name v sheet).1
    ∧ wellFormedResult (sheetDeleteVendor t name sheet).1
    ∧ wellFormedResult (localFetchVendors st).1
    ∧ wellFormedResult (localAddVendor v st).1
    ∧ wellFormedResult (localUpdateVendor name v st).1
    ∧ wellFormedResult (localDeleteVendor name st).1 := by
  refine ⟨?_, ?_, ?_, ?_, ?_, ?_, ?_, ?_⟩
  · cases hg : t.getFault <;> simp [sheetFetchVendors, hg, wellFormedResult]
  · cases hw : t.writeFault <;> simp [sheetAddVendor, hw, wellFormedResult]
  · unfold sheetUpdateVendor
    cases hg : t.getFault <;> simp only [sheetFetchVendors, hg]
    · cases hidx : (parseSheet sheet).findIdx? (fun w => w.CompanyName = name)
      · simp [hidx, wellFormedResult]
      · cases hw : t.writeFault <;> simp [hidx, hw, wellFormedResult]
    · simp [wellFormedResult]
    · simp [wellFormedResult]
  · unfold sheetDeleteVendor
    cases hg : t.getFault <;> simp only [sheetFetchVendors, hg]
    · cases hidx : (parseSheet sheet).findIdx? (fun w => w.CompanyName = name)
      · simp [hidx, wellFormedResult]
      · cases hw : t.writeFault <;> simp [hidx, hw, wellFormedResult]
    · simp [wellFormedResult]
    · simp [wellFormedResult]
  · cases st <;> simp [localFetchVendors, getStoredVendors, wellFormedResult]
  · cases st <;> simp [localAddVendor, getStoredVendors, wellFormedResult]
  · unfold localUpdateVendor
    cases st with
    | empty =>
      cases h : SEED_DATA.findIdx? (fun w => w.CompanyName = name) <;>
        simp [getStoredVendors, h, wellFormedResult]
    | corrupt raw =>
      cases h : SEED_DATA.findIdx? (fun w => w.CompanyName = name) <;>
        simp [getStoredVendors, h, wellFormedResult]
    | stored vs =>
      cases h : vs.findIdx? (fun w => w.CompanyName = name) <;>
        simp [getStoredVendors, h, wellFormedResult]
  · unfold localDeleteVendor
    cases st <;> simp only [getStoredVendors] <;> split <;>
      simp [wellFormedResult]

/-- When no element matches, `findIdx?` returns `none`. -/
lemma findIdx?_none_of_no_match {α : Type} (p : α → Bool) (l : List α)
    (h : ∀ a ∈ l, p a = false) : l.findIdx? p = none :=
  List.findIdx?_eq_none_iff.mpr (fun a ha => by simp [h a ha])

/-- C3 counterexample: on unparseable stored content the read yields the
seed but the catch branch performs no write, so the seed is NOT persisted
— the store still holds its corrupt content afterwards, refuting the
claim that both the empty and the unparseable store are reseeded and
persisted. -/
theorem C3_counterexample :
    (localFetchVendors (StoreState.corrupt "not json")).1.data = some SEED_DATA
    ∧ (localFetchVendors (StoreState.corrupt "not json")).2
        = StoreState.corrupt "not json"
    ∧ StoreState.corrupt "not json" ≠ StoreState.stored SEED_DATA := by
  refine ⟨rfl, rfl, ?_⟩
  decide

/-- C3 as amended: a read of the empty store yields the 5 seed records
and persists them; a read of unparseable content yields the 5 seed
records but does not persist them — the store keeps its unparseable
content. -/
theorem C3_seed_behavior :
    localFetchVendors StoreState.empty
      = ({ success := true, data := some SEED_DATA, error := none },
         StoreState.stored SEED_DATA)
    ∧ ∀ raw, localFetchVendors (StoreState.corrupt raw)
      = ({ success := true, data := some SEED_DATA, error := none },
         StoreState.corrupt raw) :=
  ⟨rfl, fun _ => rfl⟩

/-- C4 counterexample: on the local backend with an empty store — which
holds no record with CompanyName "X" — `update("X", rec)` does fail, but
the lookup's read seeds the store, so the backing store after the call
(`stored SEED_DATA`) differs from the store before the call (`empty`):
a write was performed, refuting the claim. -/
theorem C4_counterexample :
    (localUpdateVendor "X" acme2 StoreState.empty).1.success = false
    ∧ (localUpdateVendor "X" acme2 StoreState.empty).2
        = StoreState.stored SEED_DATA
    ∧ StoreState.stored SEED_DATA ≠ StoreState.empty := by
  refine ⟨?_, ?_, ?_⟩ <;> decide

/-- C4 as amended: update of a missing key returns a not-found failure
envelope and leaves the store unchanged, for the remote backend on any
sheet and for the local backend on any store already holding a parsed
record list; an empty local store is additionally seeded by the lookup's
read even though the update itself fails. -/
theorem C4_update_not_found :
    (∀ (k : String) (v : Vendor) (vs : List Vendor),
       (∀ w ∈ vs, w.CompanyName ≠ k) →
       localUpdateVendor k v (StoreState.stored vs)
         = ({ success := false, data := none
            , error := some ("Vendor \"" ++ k ++ "\" not found") },
            StoreState.stored vs))
    ∧ (∀ (t : Transport) (k : String) (v : Vendor) (sheet : Sheet),
       t.getFault = .ok →
       (∀ w ∈ parseSheet sheet, w.CompanyName ≠ k) →
       sheetUpdateVendor t k v sheet
         = ({ success := false, data := none
            , error := some ("Vendor \"" ++ k ++ "\" not found") },
            sheet))
    ∧ (∀ (k : String) (v : Vendor),
       localUpdateVendor k v StoreState.empty
         = (({ success := false, data := none
             , error := some ("Vendor \"" ++ k ++ "\" not found") } :
               SheetsApiResponse Vendor),
            StoreState.stored SEED_DATA)
         ∨ (localUpdateVendor k v StoreState.empty).1.success = true) := by
  refine ⟨?_, ?_, ?_⟩
  · intro k v vs hno
    have hidx : vs.findIdx? (fun w => w.CompanyName = k) = none :=
      findIdx?_none_of_no_match _ _ (fun a ha => by simp [hno a ha])
    simp [localUpdateVendor, getStoredVendors, hidx]
  · intro t k v sheet hget hno
    have hidx : (parseSheet sheet).findIdx? (fun w => w.CompanyName = k)
        = none :=
      findIdx?_none_of_no_match _ _ (fun a ha => by simp [hno a ha])
    unfold sheetUpdateVendor
    simp [sheetFetchVendors, hget, hidx]
  · intro k v
    by_cases hmem : ∀ w ∈ SEED_DATA, w.CompanyName ≠ k
    · left
      have hidx : SEED_DATA.findIdx? (fun w => w.CompanyName = k) = none :=
        findIdx?_none_of_no_match _ _ (fun a ha => by simp [hmem a ha])
      simp [localUpdateVendor, getStoredVendors, hidx]
    · right
      push_neg at hmem
      obtain ⟨w, hw, hwk⟩ := hmem
      obtain ⟨i, hidx⟩ :=
        findIdx?_some_of_match (fun w => w.CompanyName = k) SEED_DATA
          ⟨w, hw, by simp [hwk]⟩
      simp [localUpdateVendor, getStoredVendors, hidx]

/-- Witness for C4 at a concrete one-record store and a concrete sheet
with no matching record. -/
theorem C4_witness :
    localUpdateVendor "X" acme2 (StoreState.stored [acme2])
      = ({ success := false, data := none
         , error := some "Vendor \"X\" not found" },
         StoreState.stored [acme2])
    ∧ sheetUpdateVendor ⟨Fault.ok, Fault.ok⟩ "X" acme2 ⟨[]⟩
      = ({ success := false, data := none
         , error := some "Vendor \"X\" not found" },
         ⟨[]⟩) :=
  ⟨C4_update_not_found.1 "X" acme2 [acme2] (by decide),
   C4_update_not_found.2.1 ⟨Fault.ok, Fault.ok⟩ "X" acme2 ⟨[]⟩ rfl
     (by decide)⟩

/-- C1 counterexample: a local store holding two records whose
CompanyName is "A"; `delete("A")` succeeds but removes BOTH matching
records (the result store is empty), not exactly one — refuting
"removes exactly one matching record". -/
theorem C1_counterexample :
    (localDeleteVendor "A" (StoreState.stored [dupA1, dupA2])).1.success = true
    ∧ (localDeleteVendor "A" (StoreState.stored [dupA1, dupA2])).2
        = StoreState.stored []
    ∧ ([dupA1, dupA2].filter (fun v => v.CompanyName = "A")).length = 2 := by
  refine ⟨?_, ?_, ?_⟩ <;> decide

/-- C1 as amended: on a store holding a parsed record list, delete
removes every record whose CompanyName equals the key (hence exactly one
when the key occurs once), leaving each non-matching record
byte-identical; with no matching record it returns a not-found failure
envelope and leaves the store unchanged.  This holds for the local
backend and, given fault-free transport, for the remote backend, whose
post-delete sheet is the canonical header row plus the surviving
records' rows, and reads back as exactly the surviving records.  (On the
local backend an empty store is first seeded by the read; the parsed-list
quantification states the behaviour past that read.) -/
theorem C1_delete_all_matches :
    (∀ (k : String) (vs : List Vendor), (∃ v ∈ vs, v.CompanyName = k) →
       localDeleteVendor k (StoreState.stored vs)
         = ({ success := true, data := none, error := none },
            StoreState.stored (vs.filter (fun v => v.CompanyName ≠ k))))
    ∧ (∀ (k : String) (vs : List Vendor), (∀ v ∈ vs, v.CompanyName ≠ k) →
       localDeleteVendor k (StoreState.stored vs)
         = ({ success := false, data := none
            , error := some ("Vendor \"" ++ k ++ "\" not found") },
            StoreState.stored vs))
    ∧ (∀ (t : Transport) (k : String) (sheet : Sheet),
        t.getFault = .ok → t.writeFault = .ok →
        ((∃ v ∈ parseSheet sheet, v.CompanyName = k) →
          sheetDeleteVendor t k sheet
            = ({ success := true, data := none, error := none },
               ⟨(SHEET_HEADERS.map CellVal.str)
                  :: ((parseSheet sheet).filter
                       (fun v => v.CompanyName ≠ k)).map vendorRow⟩)
          ∧ parseSheet (sheetDeleteVendor t k sheet).2
              = (parseSheet sheet).filter (fun v => v.CompanyName ≠ k))
        ∧ ((∀ v ∈ parseSheet sheet, v.CompanyName ≠ k) →
          sheetDeleteVendor t k sheet
            = ({ success := false, data := none
               , error := some ("Vendor \"" ++ k ++ "\" not found") },
               sheet))) := by
  refine ⟨?_, ?_, ?_⟩
  · intro k vs hmatch
    obtain ⟨v, hv, hvk⟩ := hmatch
    have hlen : (vs.filter (fun v => v.CompanyName ≠ k)).length ≠ vs.length :=
      filter_length_lt_of_mem_not _ _ ⟨v, hv, by simp [hvk]⟩
    simp only [localDeleteVendor, getStoredVendors]
    rw [if_neg hlen]
    rfl
  · intro k vs hno
    have hall : vs.filter (fun v => v.CompanyName ≠ k) = vs :=
      List.filter_eq_self.mpr (fun a ha => by simp [hno a ha])
    have hlen : (vs.filter (fun v => v.CompanyName ≠ k)).length = vs.length := by
      rw [hall]
    simp only [localDeleteVendor, getStoredVendors]
    rw [if_pos hlen]
  · intro t k sheet hget hwrite
    constructor
    · intro hmatch
      obtain ⟨v, hv, hvk⟩ := hmatch
      obtain ⟨i, hidx⟩ :=
        findIdx?_some_of_match (fun w => w.CompanyName = k) (parseSheet sheet)
          ⟨v, hv, by simp [hvk]⟩
      have hdel : sheetDeleteVendor t k sheet
          = ({ success := true, data := none, error := none },
             ⟨(SHEET_HEADERS.map CellVal.str)
                :: ((parseSheet sheet).filter
                     (fun v => v.CompanyName ≠ k)).map vendorRow⟩) := by
        unfold sheetDeleteVendor
        simp [sheetFetchVendors, hget, hidx, hwrite]
      refine ⟨hdel, ?_⟩
      rw [hdel]
      exact parseSheet_canonical _
    · intro hno
      have hidx : (parseSheet sheet).findIdx? (fun w => w.CompanyName = k)
          = none :=
        findIdx?_none_of_no_match _ _ (fun a ha => by simp [hno a ha])
      unfold sheetDeleteVendor
      simp [sheetFetchVendors, hget, hidx]

/-- Witness for C1: deleting the only record of a concrete one-record
local store succeeds and empties it, and a remote delete on a concrete
two-record canonical sheet removes exactly the matching row. -/
theorem C1_witness :
    localDeleteVendor "Acme2" (StoreState.stored [acme2])
      = ({ success := true, data := none, error := none },
         StoreState.stored [])
    ∧ sheetDeleteVendor ⟨Fault.ok, Fault.ok⟩ "A"
        ⟨[SHEET_HEADERS.map CellVal.str, vendorRow dupA1, vendorRow acme2]⟩
      = ({ success := true, data := none, error := none },
         ⟨[SHEET_HEADERS.map CellVal.str, vendorRow acme2]⟩) := by
  constructor
  · have h := C1_delete_all_matches.1 "Acme2" [acme2] ⟨acme2, by decide, rfl⟩
    simpa using h
  · have h := (C1_delete_all_matches.2.2 ⟨Fault.ok, Fault.ok⟩ "A"
      ⟨[SHEET_HEADERS.map CellVal.str, vendorRow dupA1, vendorRow acme2]⟩
      rfl rfl).1 ⟨dupA1, by decide, rfl⟩
    simpa using h.1

/-- Splitting an exhausted input closes the current accumulator. -/
lemma splitSepAux_nil (sep : List Char) (fuel : Nat) (acc : List Char) :
    splitSepAux sep fuel [] acc = [acc.reverse] := by
  cases fuel <;> rfl

/-- Scanning past a block that contains no occurrence of the separator's
first character just moves the block into the accumulator. -/
lemma splitSepAux_skip (sc : Char) (sep' : List Char) :
    ∀ (x s' acc : List Char) (fuel : Nat),
      (∀ c ∈ x, c ≠ sc) → x.length + s'.length ≤ fuel →
      splitSepAux (sc :: sep') fuel (x ++ s') acc
        = splitSepAux (sc :: sep') (fuel - x.length) s' (x.reverse ++ acc) := by
  intro x
  induction x with
  | nil => intro s' acc fuel _ _; simp
  | cons c x' ih =>
    intro s' acc fuel hni hlen
    have hceq : (sc == c) = false :=
      beq_eq_false_iff_ne.mpr
        (fun h => (hni c (List.mem_cons_self c x')) h.symm)
    cases fuel with
    | zero =>
      simp only [List.length_cons] at hlen
      omega
    | succ f =>
      have hpre : (sc :: sep').isPrefixOf (c :: (x' ++ s')) = false := by
        simp [List.isPrefixOf, hceq]
      have hstep : splitSepAux (sc :: sep') (f + 1) (c :: (x' ++ s')) acc
          = splitSepAux (sc :: sep') f (x' ++ s') (c :: acc) := by
        simp [splitSepAux, hpre]
      show splitSepAux (sc :: sep') (f + 1) (c :: (x' ++ s')) acc = _
      rw [hstep,
        ih s' (c :: acc) f (fun d hd => hni d (List.mem_cons_of_mem c hd))
          (by simp only [List.length_cons] at hlen; omega)]
      simp [Nat.succ_sub_succ, List.append_assoc]

/-- Hitting the separator closes the accumulator and resumes after it. -/
lemma splitSepAux_head (sc : Char) (sep' rest acc : List Char) (fuel : Nat) :
    splitSepAux (sc :: sep') (fuel + 1) (sc :: (sep' ++ rest)) acc
      = acc.reverse :: splitSepAux (sc :: sep') fuel rest [] := by
  have hpre : (sc :: sep').isPrefixOf (sc :: (sep' ++ rest)) = true := by
    rw [List.isPrefixOf_iff_prefix]
    exact ⟨rest, by simp⟩
  have hdrop : List.drop ((sc :: sep').length - 1) (sep' ++ rest) = rest := by
    simp only [List.length_cons, Nat.add_sub_cancel]
    exact List.drop_left sep' rest
  simp [splitSepAux, hpre, hdrop]

/-- Splitting the join of a non-empty list of separator-free blocks
recovers the blocks, given enough fuel. -/
lemma splitSepAux_join (sc : Char) (sep' : List Char) :
    ∀ (l : List (List Char)) (fuel : Nat), l ≠ [] →
      (∀ x ∈ l, ∀ c ∈ x, c ≠ sc) →
      (jsJoinAux (sc :: sep') l).length ≤ fuel →
      splitSepAux (sc :: sep') fuel (jsJoinAux (sc :: sep') l) [] = l := by
  intro l
  induction l with
  | nil => intro fuel h _ _; exact absurd rfl h
  | cons x tl ih =>
    intro fuel _ hni hlen
    cases tl with
    | nil =>
      show splitSepAux (sc :: sep') fuel x [] = [x]
      calc splitSepAux (sc :: sep') fuel x []
          = splitSepAux (sc :: sep') fuel (x ++ []) [] := by simp
        _ = splitSepAux (sc :: sep') (fuel - x.length) [] (x.reverse ++ []) :=
            splitSepAux_skip sc sep' x [] []
              fuel (hni x (List.mem_cons_self x []))
              (by simpa [jsJoinAux] using hlen)
        _ = [x] := by rw [splitSepAux_nil]; simp
    | cons y tl' =>
      have hx : ∀ c ∈ x, c ≠ sc := hni x (List.mem_cons_self x _)
      have hjoin : jsJoinAux (sc :: sep') (x :: y :: tl')
          = x ++ ((sc :: sep') ++ jsJoinAux (sc :: sep') (y :: tl')) := by
        simp [jsJoinAux, List.append_assoc]
      set rest := jsJoinAux (sc :: sep') (y :: tl') with hrest
      rw [hjoin] at hlen ⊢
      have hlen2 : x.length + ((sc :: sep') ++ rest).length ≤ fuel := by
        simpa [List.length_append] using hlen
      have hL : ((sc :: sep') ++ rest).length
          = sep'.length + 1 + rest.length := by
        simp [List.length_append, List.length_cons]
        omega
      rw [splitSepAux_skip sc sep' x ((sc :: sep') ++ rest) [] fuel hx hlen2]
      obtain ⟨f, hfe⟩ : ∃ f, fuel - x.length = f + 1 :=
        ⟨fuel - x.length - 1, by omega⟩
      rw [hfe, show (sc :: sep') ++ rest = sc :: (sep' ++ rest) from rfl,
        splitSepAux_head]
      have hih : splitSepAux (sc :: sep') f rest [] = y :: tl' := by
        apply ih f (by simp)
          (fun z hz => hni z (List.mem_cons_of_mem x hz))
        omega
      rw [hih]
      simp

/-- Structure eta for strings. -/
lemma stringMk_data (s : String) : String.mk s.data = s := rfl

/-- A non-empty string has a non-empty character list. -/
lemma string_ne_empty_data {s : String} (h : s ≠ "") : s.data ≠ [] := by
  intro hd
  apply h
  cases s with
  | mk d =>
    simp only at hd
    rw [hd]

/-- The join of a non-empty block list starts with its first block. -/
lemma jsJoinAux_cons (sep : List Char) (x : List Char)
    (rest : List (List Char)) :
    ∃ t, jsJoinAux sep (x :: rest) = x ++ t := by
  cases rest with
  | nil => exact ⟨[], by simp [jsJoinAux]⟩
  | cons y tl =>
      exact ⟨sep ++ jsJoinAux sep (y :: tl), by simp [jsJoinAux, List.append_assoc]⟩

/-- Splitting a `", "`-join of non-empty comma-free strings recovers the
list (the inverse law behind the storage/edit round trip). -/
lemma jsSplit_jsJoin (l : List String) (hne : l ≠ [])
    (hnc : ∀ x ∈ l, ∀ c ∈ x.data, c ≠ ',') :
    jsSplit (jsJoin ", " l) ", " = l := by
  have hne' : l.map (·.data) ≠ [] := by simpa using hne
  have hnc' : ∀ x ∈ l.map (·.data), ∀ c ∈ x, c ≠ ',' := by
    intro x hx c hc
    obtain ⟨s, hs, rfl⟩ := List.mem_map.mp hx
    exact hnc s hs c hc
  have h1 : jsJoin ", " l = ⟨jsJoinAux [',', ' '] (l.map (·.data))⟩ := rfl
  have h2 : jsSplit (jsJoin ", " l) ", "
      = (splitSepAux [',', ' ']
          (jsJoinAux [',', ' '] (l.map (·.data))).length
          (jsJoinAux [',', ' '] (l.map (·.data))) []).map String.mk := rfl
  rw [h2, splitSepAux_join ',' [' '] (l.map (·.data)) _ hne' hnc' le_rfl,
    List.map_map]
  simp [Function.comp_def, stringMk_data]

/-- Each product enum value's wire string is non-empty and comma-free. -/
lemma product_toStr_wf (p : Product) :
    Product.toStr p ≠ "" ∧ ∀ c ∈ (Product.toStr p).data, c ≠ ',' := by
  cases p <;> exact ⟨by decide, by decide⟩

/-- C2: for every well-formed storage-form record — CompanyName and
AdditionalInfo already trimmed, BusinessType a valid enum value, and
Products the `", "`-join of a list of product enum values — converting
storage to edit form and back (`formDataToVendor (vendorToFormData r)`)
reproduces the record byte-for-byte. -/
theorem C2_storage_edit_roundtrip (v : Vendor) (ps : List Product)
    (hcn : jsTrim v.CompanyName = v.CompanyName)
    (hai : jsTrim v.AdditionalInfo = v.AdditionalInfo)
    (hbt : v.BusinessType ∈ BUSINESS_TYPES)
    (hp : v.Products = jsJoin ", " (ps.map Product.toStr)) :
    formDataToVendor (vendorToFormData v) = v := by
  cases ps with
  | nil =>
    have hpe : v.Products = "" := by rw [hp]; rfl
    cases v with
    | mk c b pr y o a =>
      simp only at hpe hcn hai
      unfold formDataToVendor vendorToFormData
      simp [hpe, hcn, hai]
      rfl
  | cons p ps' =>
    have hprops : ∀ x ∈ (p :: ps').map Product.toStr,
        x ≠ "" ∧ ∀ c ∈ x.data, c ≠ ',' := by
      intro x hx
      obtain ⟨q, _, rfl⟩ := List.mem_map.mp hx
      exact product_toStr_wf q
    have hsplit : jsSplit v.Products ", " = (p :: ps').map Product.toStr := by
      rw [hp]
      exact jsSplit_jsJoin _ (by simp) (fun x hx => (hprops x hx).2)
    have hfilter : ((p :: ps').map Product.toStr).filter (fun s => s ≠ "")
        = (p :: ps').map Product.toStr :=
      List.filter_eq_self.mpr (fun x hx => by simp [(hprops x hx).1])
    have hpne : v.Products ≠ "" := by
      rw [hp]
      intro hcontra
      obtain ⟨t, ht⟩ := jsJoinAux_cons [',', ' '] (Product.toStr p).data
        ((ps'.map Product.toStr).map (·.data))
      have hd : jsJoinAux [',', ' ']
          (((p :: ps').map Product.toStr).map (·.data)) = [] :=
        congrArg String.data hcontra
      rw [show ((p :: ps').map Product.toStr).map (·.data)
            = (Product.toStr p).data :: (ps'.map Product.toStr).map (·.data)
          from rfl, ht] at hd
      exact string_ne_empty_data (product_toStr_wf p).1
        (List.append_eq_nil.mp hd).1
    cases v with
    | mk c b pr y o a =>
      simp only at hcn hai hp hsplit hpne
      unfold formDataToVendor vendorToFormData
      rw [if_neg hpne, hsplit, hfilter]
      simp [hcn, hai, hp]

/-- Witness for C2 at the first seed record, whose product string is the
join of two enum values. -/
theorem C2_witness :
    formDataToVendor (vendorToFormData
      { CompanyName := "Acme Electronics", BusinessType := "Manufacturer"
      , Products := "Electronics, Software", YearsInBusiness := 15
      , OnboardingDate := "2024-01-15"
      , AdditionalInfo := "Primary electronics supplier" })
      = { CompanyName := "Acme Electronics", BusinessType := "Manufacturer"
        , Products := "Electronics, Software", YearsInBusiness := 15
        , OnboardingDate := "2024-01-15"
        , AdditionalInfo := "Primary electronics supplier" } :=
  C2_storage_edit_roundtrip _ [Product.electronics, Product.software]
    (by decide) (by decide) (by decide) (by decide)

end VendorPortal
